import Mathlib

/-!
Shallow embedding of `scan_combiner/scanner.py`: the eSCL protocol driver
(status parsing, job lookup, region parsing, the poll/retrieve loop and
the final success determination), together with theorems settling the
specification claims about it.

Python strings are modelled by `String`, bytes payloads by `List Nat`,
`decimal.Decimal` arithmetic by exact fractions, Python `int(...)`
truncation toward zero by integer T-division, and raised exceptions by
`Except`. File writes and HTTP requests are modelled as explicit event
sequences.
-/

/-! ## Job records and the finalize status check (`ScanJob._check_final_status`) -/

/-- Bytes of one fetched document. -/
abbrev Doc := List Nat

/-- The `pwg:JobStateReasons` field of a parsed job record, as the Python
code can observe it through `xmltodict`: the key may be missing, present
but falsy (`None` for an empty element), or hold one `pwg:JobStateReason`
that is either a single string or a list of strings (a list produced by
`xmltodict` is always non-empty). -/
inductive ReasonField where
  | absent
  | nullish
  | single (s : String)
  | multiple (hd : String) (tl : List String)
deriving DecidableEq

/-- One `scan:JobInfo` record from a parsed `ScannerStatus` document:
`pwg:JobUuid`, optional `pwg:JobState`, and the reasons field. -/
structure JobInfo where
  jobUuid : String
  jobState : Option String
  reasons : ReasonField
deriving DecidableEq

/-- Embeds `ScanJob._extract_job_reason`: `None` when `pwg:JobStateReasons`
is missing or falsy, else the single `pwg:JobStateReason` string, or the
first element when the device reports a list of reasons. -/
def extract_job_reason (ji : JobInfo) : Option String :=
  match ji.reasons with
  | .absent => none
  | .nullish => none
  | .single s => some s
  | .multiple hd _ => some hd

/-- Python truthiness of an optional string: `None` and `""` are falsy. -/
def strTruthy : Option String → Bool
  | none => false
  | some s => !s.isEmpty

/-- Python `a or b` for an optional string `a` and a string `b`. -/
def pyOrStr (a : Option String) (b : String) : String :=
  match a with
  | some s => if s.isEmpty then b else s
  | none => b

/-- `jobinfo.get('pwg:JobState', 'Unknown')`. -/
def jobStateOf (ji : JobInfo) : String := ji.jobState.getD "Unknown"

/-- Embeds `ScanJob._check_final_status` applied to the job record found in
the finalize status snapshot: raises `ScanJobError` exactly when the
extracted reason differs from `'JobCompletedSuccessfully'`, the job state
is outside `['Completed', 'Aborted']`, and the reason is truthy. -/
def check_final_status (ji : JobInfo) : Except String Unit :=
  if extract_job_reason ji = some "JobCompletedSuccessfully" then Except.ok ()
  else
    if (¬ (jobStateOf ji = "Completed" ∨ jobStateOf ji = "Aborted")) ∧
        strTruthy (extract_job_reason ji) = true then
      Except.error ("Scan job failed: " ++ pyOrStr (extract_job_reason ji) (jobStateOf ji))
    else Except.ok ()

/-- A finalize snapshot whose record carries the explicit non-success
reason `JobCanceledByUser` while the reported state is `Completed`. -/
def cancelledButCompleted : JobInfo :=
  { jobUuid := "abc", jobState := some "Completed", reasons := .single "JobCanceledByUser" }

/-! ## Status lookup by job identifier (`ScannerClient._get_status`) -/

/-- The fixed scheme token stripped from reported job identifiers. -/
def uuid_prefix : String := "urn:uuid:"

/-- Python `s.startswith(pre)`. -/
def pyStartsWith (s pre : String) : Bool := pre.data.isPrefixOf s.data

/-- Python slicing `s[n:]`. -/
def pyDrop (s : String) (n : Nat) : String := ⟨s.data.drop n⟩

/-- Python `s.split(sep)` for a one-character separator. -/
def pySplit (sep : Char) : List Char → List (List Char)
  | [] => [[]]
  | c :: rest =>
    match pySplit sep rest with
    | [] => [[]]
    | g :: gs => if c = sep then [] :: g :: gs else (c :: g) :: gs

/-- The last element of a non-empty list of parts (`parts[-1]`; a split
result is never empty). -/
def lastPart : List (List Char) → List Char
  | [] => []
  | [p] => p
  | _ :: ps => lastPart ps

/-- Strips the `urn:uuid:` scheme prefix from a reported `pwg:JobUuid`
when present, as `ScannerClient._get_status` does before comparing. -/
def strip_uuid (s : String) : String :=
  if pyStartsWith s uuid_prefix then pyDrop s uuid_prefix.length else s

/-- A parsed `scan:ScannerStatus` document: the device state and the
(already list-normalized) collection of job records. -/
structure ScannerStatus where
  state : String
  jobs : List JobInfo
deriving DecidableEq

/-- The search loop of `ScannerClient._get_status`: the first job record
whose identifier, after stripping the scheme prefix, equals the wanted
identifier. -/
def find_job : List JobInfo → String → Option JobInfo
  | [], _ => none
  | ji :: rest, uuid =>
    if strip_uuid ji.jobUuid = uuid then some ji else find_job rest uuid

/-- Embeds `ScannerClient._get_status`: with no identifier it returns the
status alone; with one it returns the matching record or raises
`ScanJobError` when no record of the collection matches. -/
def get_status (st : ScannerStatus) (job_uuid : Option String) :
    Except String (ScannerStatus × Option JobInfo) :=
  match job_uuid with
  | none => Except.ok (st, none)
  | some uuid =>
    match find_job st.jobs uuid with
    | some ji => Except.ok (st, some ji)
    | none => Except.error ("Job " ++ uuid ++ " not found")

/-- The job identifier derived in `ScanJob.execute` as the final path
segment of the job-creation response's location field
(`job_uri.split('/')[-1]`). -/
def job_uuid_of (uri : String) : String := ⟨lastPart (pySplit '/' uri.data)⟩

/-- A status document whose single record carries a `urn:uuid:`-prefixed
identifier. -/
def prefixedStatus : ScannerStatus :=
  { state := "Idle",
    jobs := [{ jobUuid := "urn:uuid:4af8", jobState := some "Completed", reasons := .absent },
             { jobUuid := "other", jobState := none, reasons := .absent }] }

/-! ## Status-document parsing (`xmltodict.parse` with `force_list`) -/

/-- A value of a parsed XML document, as `xmltodict` produces it:
`None` for an empty element, a text string, a keyed mapping, or a list of
values for repeated (or force-listed) child elements. -/
inductive XVal where
  | null
  | str (s : String)
  | obj (fields : List (String × XVal))
  | list (items : List XVal)

/-- Embeds `xmltodict`'s grouping rule for the occurrences of one child
tag: no occurrence leaves the key absent, a repeated tag becomes a list,
and a single occurrence stays a bare value unless the tag is named in
`force_list`, in which case it is coerced to a one-element list. The
code calls `xmltodict.parse` with `force_list=('scan:JobInfo',)`. -/
def groupChildren (force_list : List String) (tag : String) : List XVal → Option XVal
  | [] => none
  | [v] => if tag ∈ force_list then some (.list [v]) else some v
  | vs => some (.list vs)

/-- The `force_list` argument used at `ScannerClient._get_status`. -/
def statusForceList : List String := ["scan:JobInfo"]

/-- The parse of the `scan:Jobs` element: its `scan:JobInfo` children
grouped under the code's `force_list`; an empty element parses to null. -/
def parseJobs (jobRecords : List XVal) : XVal :=
  match groupChildren statusForceList "scan:JobInfo" jobRecords with
  | none => .null
  | some v => .obj [("scan:JobInfo", v)]

/-- The parse of a `scan:ScannerStatus` document carrying the device
state and the given job records. -/
def parse_status_document (devState : String) (jobRecords : List XVal) : XVal :=
  .obj [("pwg:State", .str devState), ("scan:Jobs", parseJobs jobRecords)]

/-- Field lookup in a parsed value, as Python's `status['scan:Jobs']`. -/
def lookupField (v : XVal) (key : String) : Option XVal :=
  match v with
  | .obj fields => (fields.find? (fun f => f.1 = key)).map Prod.snd
  | _ => none

/-! ## Region parsing (`parse_region` and the papersize library) -/

/-- An exact fraction with positive denominator: models the
`decimal.Decimal` values the papersize library computes with (the
library's 28 significant digits are more than enough for every quantity
handled here, so exact arithmetic is a faithful model). -/
structure Frac where
  num : Int
  den : Int
deriving DecidableEq

/-- Fraction multiplication. -/
def Frac.mul (a b : Frac) : Frac := ⟨a.num * b.num, a.den * b.den⟩

/-- Fraction division (the divisors used here are always positive). -/
def Frac.div (a b : Frac) : Frac := ⟨a.num * b.den, a.den * b.num⟩

/-- Python `int(...)` applied to a Decimal: truncation toward zero. -/
def pyInt (q : Frac) : Int := q.num.tdiv q.den

/-- Python `s.lower()`. -/
def pyLower (s : String) : String := ⟨s.data.map Char.toLower⟩

/-- Modelled from the papersize library (an external dependency, not part
of this repository): `papersize.UNITS`, points per length unit — the
point itself, the metric units, the inch (72 points) and the pica, with
the empty suffix standing for a bare number of points. -/
def UNITS : List (String × Frac) :=
  [("", ⟨1, 1⟩), ("pt", ⟨1, 1⟩), ("mm", ⟨360, 127⟩), ("cm", ⟨3600, 127⟩),
   ("dm", ⟨36000, 127⟩), ("m", ⟨360000, 127⟩), ("in", ⟨72, 1⟩), ("pc", ⟨12, 1⟩)]

/-- The characters the numeric token of a length is made of. -/
def isDigitOrDot (c : Char) : Bool := c.isDigit || c = '.'

/-- The natural number denoted by a list of decimal digits. -/
def digitsVal (cs : List Char) : Nat :=
  cs.foldl (fun a c => 10 * a + (c.toNat - 48)) 0

/-- The Decimal denoted by a numeric token: an integer part and an
optional fractional part separated by one dot, at least one of them
non-empty (`Decimal('.')` and `Decimal('')` are invalid). -/
def parseDecimal (cs : List Char) : Option Frac :=
  match pySplit '.' cs with
  | [ip] => if ip.isEmpty then none else some ⟨digitsVal ip, 1⟩
  | [ip, fp] =>
    if ip.isEmpty && fp.isEmpty then none
    else some ⟨digitsVal ip * 10 ^ fp.length + digitsVal fp, (10 : Int) ^ fp.length⟩
  | _ => none

/-- Modelled from the papersize library: `papersize.parse_length` parses
a decimal number followed by an optional unit name and returns the
length as a number of points; anything else raises `CouldNotParse`. -/
def parse_length (cs : List Char) : Option Frac :=
  match parseDecimal (cs.takeWhile isDigitOrDot),
      (UNITS.find? (fun u => u.1 = (⟨cs.dropWhile isDigitOrDot⟩ : String))).map Prod.snd with
  | some v, some u => some (v.mul u)
  | _, _ => none

/-- Modelled from the papersize library: `papersize.SIZES`, the known
paper-size names with their width and height specifications (ISO sizes
in millimetres, North-American sizes in inches). -/
def SIZES : List (String × String × String) :=
  [("4a0", "1682mm", "2378mm"), ("2a0", "1189mm", "1682mm"),
   ("a0", "841mm", "1189mm"), ("a1", "594mm", "841mm"), ("a2", "420mm", "594mm"),
   ("a3", "297mm", "420mm"), ("a4", "210mm", "297mm"), ("a5", "148mm", "210mm"),
   ("a6", "105mm", "148mm"), ("a7", "74mm", "105mm"), ("a8", "52mm", "74mm"),
   ("a9", "37mm", "52mm"), ("a10", "26mm", "37mm"),
   ("b0", "1000mm", "1414mm"), ("b1", "707mm", "1000mm"), ("b2", "500mm", "707mm"),
   ("b3", "353mm", "500mm"), ("b4", "250mm", "353mm"), ("b5", "176mm", "250mm"),
   ("b6", "125mm", "176mm"), ("b7", "88mm", "125mm"), ("b8", "62mm", "88mm"),
   ("b9", "44mm", "62mm"), ("b10", "31mm", "44mm"),
   ("c0", "917mm", "1297mm"), ("c1", "648mm", "917mm"), ("c2", "458mm", "648mm"),
   ("c3", "324mm", "458mm"), ("c4", "229mm", "324mm"), ("c5", "162mm", "229mm"),
   ("c6", "114mm", "162mm"), ("c7", "81mm", "114mm"), ("c8", "57mm", "81mm"),
   ("c9", "40mm", "57mm"), ("c10", "28mm", "40mm"),
   ("letter", "8.5in", "11in"), ("legal", "8.5in", "14in"),
   ("executive", "7.25in", "10.5in"), ("tabloid", "11in", "17in"),
   ("ledger", "17in", "11in"), ("statement", "5.5in", "8.5in"),
   ("halfletter", "5.5in", "8.5in")]

/-- Lookup of a lowered region string among the known size names
(`region_str in papersize.SIZES`). -/
def sizesFind (s : String) : Option (String × String) :=
  (SIZES.find? (fun e => e.1 = s)).map Prod.snd

/-- The rectangle components of a parsed region. -/
structure ScanRegion where
  x : Int
  y : Int
  width : Int
  height : Int
deriving DecidableEq

instance {ε α : Type} [DecidableEq ε] [DecidableEq α] : DecidableEq (Except ε α) :=
  fun a b =>
    match a, b with
    | .ok x, .ok y => decidable_of_iff (x = y) (by simp)
    | .error x, .error y => decidable_of_iff (x = y) (by simp)
    | .ok _, .error _ => isFalse (by simp)
    | .error _, .ok _ => isFalse (by simp)

/-- `papersize.UNITS['in'] / 300`: one `ThreeHundredthsOfInches` device
unit, in points. -/
def deviceUnit : Frac := Frac.div ⟨72, 1⟩ ⟨300, 1⟩

/-- Embeds `parse_region`: a known paper-size name yields a rectangle
with zero offsets and the size's full width and height; otherwise the
string must be a four-part colon-separated rectangle of parseable
lengths; each component is divided by the device-unit constant and
truncated by `int(...)`. Any other input raises the region-parse error
(`ScannerError('Could not parse region ...')`). -/
def parse_region (region : String) : Except String ScanRegion :=
  match sizesFind (pyLower region) with
  | some (ws, hs) =>
    match parse_length ws.data, parse_length hs.data with
    | some w, some h =>
      Except.ok ⟨pyInt (Frac.div ⟨0, 1⟩ deviceUnit), pyInt (Frac.div ⟨0, 1⟩ deviceUnit),
                 pyInt (Frac.div w deviceUnit), pyInt (Frac.div h deviceUnit)⟩
    | _, _ => Except.error ("Could not parse region " ++ region)
  | none =>
    match pySplit ':' (pyLower region).data with
    | [p1, p2, p3, p4] =>
      match parse_length p1, parse_length p2, parse_length p3, parse_length p4 with
      | some x, some y, some w, some h =>
        Except.ok ⟨pyInt (Frac.div x deviceUnit), pyInt (Frac.div y deviceUnit),
                   pyInt (Frac.div w deviceUnit), pyInt (Frac.div h deviceUnit)⟩
      | _, _, _, _ => Except.error ("Could not parse region " ++ region)
    | _ => Except.error ("Could not parse region " ++ region)

/-- A length in points as a number of inches. -/
def inchesOf (pts : Frac) : Frac := Frac.div pts ⟨72, 1⟩

/-- The spec's conversion rule: a physical length in inches converted at
300 device units per inch, truncated toward zero. -/
def atThreeHundredPerInch (inches : Frac) : Int := pyInt (inches.mul ⟨300, 1⟩)

/-! ## The poll/retrieve loop and the run pipeline (`ScanJob.execute`, `main`) -/

/-- Python `str(n)` for a page number: its decimal representation,
computed with a structural fuel argument (any fuel at least `n`
suffices). -/
def natStrAux : Nat → Nat → List Char
  | 0, _ => []
  | fuel + 1, n =>
    if n = 0 then []
    else natStrAux fuel (n / 10) ++ [Char.ofNat (48 + n % 10)]

/-- Python `str(n)`. -/
def natStr (n : Nat) : String :=
  if n = 0 then "0" else ⟨natStrAux (n + 1) n⟩

/-- The HTTP requests and file writes the controller performs, in
order. -/
inductive Ev where
  | getCaps
  | getStatus
  | createJob
  | nextDoc
  | fileWrite (name : String)
deriving DecidableEq

/-- The name `ScanJob._save_document` writes a page to: the single
combined target file for the `pdf` format, otherwise the target name
with `-{page}` inserted before the extension
(`f"{basename}-{page}{suffix}"`). -/
def save_name (format stem suffix : String) (page : Nat) : String :=
  if format = "pdf" then stem ++ suffix
  else stem ++ "-" ++ natStr page ++ suffix

/-- Embeds `ScanJob._save_document`: the write of one fetched document,
as the written name paired with the written bytes (`open(..., 'wb')`
truncates, so a later write to the same name replaces the content). -/
def save_document (format stem suffix : String) (data : Doc) (page : Nat) : String × Doc :=
  (save_name format stem suffix page, data)

/-- One poll iteration's device responses: the `pwg:State` of the status
snapshot fetched at the iteration's start, and the answer to its
`NextDocument` fetch (`none` models the 404 "no more documents"
signal). -/
structure PollResponse where
  state : String
  doc : Option Doc

/-- The observable outcome of the poll loop: the file writes it performed
in order, the number of `NextDocument` fetches attempted, the final page
counter, and the request/write event trace. -/
structure LoopOut where
  writes : List (String × Doc)
  fetches : Nat
  finalPage : Nat
  evs : List Ev
deriving DecidableEq

/-- Embeds the poll loop of `ScanJob.execute`: each iteration fetches the
status snapshot, then the next document; a 404 breaks the loop
unconditionally; otherwise the document is saved, the page counter
incremented, and the loop continues only while the snapshot reported
`Processing`. (The in-loop status fetch is modelled by the `state` field
of the iteration's `PollResponse`.) -/
def pollLoop (format stem suffix : String) :
    List PollResponse → Nat → List (String × Doc) → Nat → List Ev → LoopOut
  | [], page, ws, k, evs => ⟨ws, k, page, evs⟩
  | r :: rest, page, ws, k, evs =>
    match r.doc with
    | none => ⟨ws, k + 1, page, evs ++ [.getStatus, .nextDoc]⟩
    | some d =>
      if r.state = "Processing" then
        pollLoop format stem suffix rest (page + 1)
          (ws ++ [save_document format stem suffix d page]) (k + 1)
          (evs ++ [.getStatus, .nextDoc, .fileWrite (save_name format stem suffix page)])
      else ⟨ws ++ [save_document format stem suffix d page], k + 1, page + 1,
            evs ++ [.getStatus, .nextDoc, .fileWrite (save_name format stem suffix page)]⟩

/-- The transport scenario of the loop claims: the device reports
`Processing` while each of the `docs` payloads is produced, and answers
the following fetch with the 404 "no more documents" signal alongside an
arbitrary final reported state. -/
def pagesThenNotFound (docs : List Doc) (lastState : String) : List PollResponse :=
  docs.map (fun d => ⟨"Processing", some d⟩) ++ [⟨lastState, none⟩]

/-- The writes the loop is expected to perform for consecutive pages
starting at `page`. -/
def expectedWrites (format stem suffix : String) : Nat → List Doc → List (String × Doc)
  | _, [] => []
  | page, d :: ds =>
    save_document format stem suffix d page :: expectedWrites format stem suffix (page + 1) ds

/-- The event trace the loop is expected to produce for consecutive
pages starting at `page`, ending at the iteration answered by the 404. -/
def expectedEvs (format stem suffix : String) : Nat → List Doc → List Ev
  | _, [] => [.getStatus, .nextDoc]
  | page, _ :: ds =>
    .getStatus :: .nextDoc :: .fileWrite (save_name format stem suffix page) ::
      expectedEvs format stem suffix (page + 1) ds

/-- The content a file holds once the run is over: the last write to its
name, if any. -/
def fsAfter (writes : List (String × Doc)) (name : String) : Option Doc :=
  (writes.reverse.find? (fun w => w.1 = name)).map Prod.snd

/-- The device side of one whole run: the probe's observations, the
job-creation response's location header, the per-iteration poll
responses, and the finalize status snapshot. -/
structure Device where
  probeState : String
  duplexSupported : Bool
  jobLocation : String
  responses : List PollResponse
  finalStatus : ScannerStatus

/-- The error kinds the driver distinguishes. -/
inductive ScanErr where
  | busy (msg : String)
  | scanner (msg : String)
  | job (msg : String)
deriving DecidableEq

/-- Embeds `ScannerClient.check_capabilities_and_status` on a reachable
device: raises `ScannerBusyError` when the probed top-level state is not
`Idle`, then `ScannerError` when duplex was requested but the endpoint
does not advertise it. -/
def check_capabilities_and_status (duplexWanted : Bool) (dev : Device) : Except ScanErr Unit :=
  if dev.probeState ≠ "Idle" then Except.error (.busy "Scanner is not idle")
  else if duplexWanted && !dev.duplexSupported then Except.error (.scanner "Duplex not supported")
  else Except.ok ()

/-- Embeds `ScanJob.execute`: creates the job, derives the job identifier
from the location header, runs the poll loop, then reconciles the final
status snapshot through `_get_status` and `_check_final_status`. -/
def ScanJob.execute (format stem suffix : String) (dev : Device) :
    Except ScanErr LoopOut × List Ev :=
  let out := pollLoop format stem suffix dev.responses 1 [] 0 []
  let evs := Ev.createJob :: (out.evs ++ [Ev.getStatus])
  match find_job dev.finalStatus.jobs (job_uuid_of dev.jobLocation) with
  | none => (Except.error (.job ("Job " ++ job_uuid_of dev.jobLocation ++ " not found")), evs)
  | some ji =>
    match check_final_status ji with
    | Except.error m => (Except.error (.job m), evs)
    | Except.ok _ => (Except.ok out, evs)

/-- Embeds the protocol part of `main`: the capabilities/status probe
runs first and only on its success is the scan job created and
executed. -/
def runMain (duplexWanted : Bool) (format stem suffix : String) (dev : Device) :
    Except ScanErr LoopOut × List Ev :=
  match check_capabilities_and_status duplexWanted dev with
  | Except.error e => (Except.error e, [Ev.getCaps, Ev.getStatus])
  | Except.ok _ =>
    let r := ScanJob.execute format stem suffix dev
    (r.1, Ev.getCaps :: Ev.getStatus :: r.2)

/-- A device busy at probe time. -/
def busyDev : Device :=
  { probeState := "Processing", duplexSupported := false,
    jobLocation := "http://h:80/eSCL/ScanJobs/1", responses := [],
    finalStatus := { state := "Processing", jobs := [] } }

/-! ### Theorems for the claims -/

/-- C1 counterexample: the claim says any explicit reason other than
`JobCompletedSuccessfully` makes finalization raise a `ScanJobError`, but
on a record with explicit reason `JobCanceledByUser` and job state
`Completed` the code raises nothing. -/
theorem c1_claim_false_on_explicit_reason :
    extract_job_reason cancelledButCompleted = some "JobCanceledByUser" ∧
    check_final_status cancelledButCompleted = Except.ok () := by
  constructor <;> rfl

/-- C1 (amended): finalization raises a `ScanJobError` if and only if a
truthy completion reason is present, it differs from
`JobCompletedSuccessfully`, and the reported job state (defaulting to
`Unknown`) is neither `Completed` nor `Aborted`; the raised message
carries that reason. In every other case — including an absent reason,
whatever the state — the job is judged successful. -/
theorem c1_amended_final_status_iff (ji : JobInfo) :
    ((∃ msg, check_final_status ji = Except.error msg) ↔
      (strTruthy (extract_job_reason ji) = true ∧
       extract_job_reason ji ≠ some "JobCompletedSuccessfully" ∧
       jobStateOf ji ≠ "Completed" ∧ jobStateOf ji ≠ "Aborted")) ∧
    (∀ msg, check_final_status ji = Except.error msg →
      msg = "Scan job failed: " ++ pyOrStr (extract_job_reason ji) (jobStateOf ji)) := by
  constructor
  · constructor
    · intro ⟨msg, hmsg⟩
      unfold check_final_status at hmsg
      split at hmsg
      · exact absurd hmsg (by simp)
      · rename_i h1
        split at hmsg
        · rename_i h2
          exact ⟨h2.2, h1, fun hc => h2.1 (Or.inl hc), fun ha => h2.1 (Or.inr ha)⟩
        · exact absurd hmsg (by simp)
    · intro ⟨ht, hne, hc, ha⟩
      refine ⟨"Scan job failed: " ++ pyOrStr (extract_job_reason ji) (jobStateOf ji), ?_⟩
      unfold check_final_status
      rw [if_neg hne, if_pos]
      exact ⟨fun h => h.elim hc ha, ht⟩
  · intro msg hmsg
    unfold check_final_status at hmsg
    split at hmsg
    · exact absurd hmsg (by simp)
    · split at hmsg
      · exact (Except.error.inj hmsg).symm
      · exact absurd hmsg (by simp)

/-- C3: a finalize snapshot whose job record has no completion-reason
field at all raises no error — the job is treated as successful by
default, whatever the reported job state is. -/
theorem c3_absent_reason_is_success (uuid : String) (st : Option String) :
    check_final_status { jobUuid := uuid, jobState := st, reasons := .absent } = Except.ok () := by
  unfold check_final_status
  simp [extract_job_reason, strTruthy]

/-- The first-match search succeeds exactly when some record matches
after prefix stripping. -/
theorem find_job_isSome_iff (jobs : List JobInfo) (uuid : String) :
    (∃ ji, find_job jobs uuid = some ji) ↔ ∃ ji ∈ jobs, strip_uuid ji.jobUuid = uuid := by
  induction jobs with
  | nil => simp [find_job]
  | cons hd tl ih =>
    by_cases h : strip_uuid hd.jobUuid = uuid
    · simp [find_job, h]
    · simp only [find_job, if_neg h, ih, List.mem_cons]
      constructor
      · intro ⟨ji, hm, he⟩
        exact ⟨ji, Or.inr hm, he⟩
      · intro ⟨ji, hm, he⟩
        rcases hm with rfl | hm
        · exact absurd he h
        · exact ⟨ji, hm, he⟩

/-- C4: with the job identifier derived as the final path segment of the
job-creation response's location field, the status lookup finds a record
if and only if some record's identifier, after stripping the
`urn:uuid:` prefix when present, equals that identifier; when no record
matches, `_get_status` raises `ScanJobError`. -/
theorem c4_job_matching (st : ScannerStatus) (location : String) :
    ((∃ ji, get_status st (some (job_uuid_of location)) = Except.ok (st, some ji) ∧
        ji ∈ st.jobs ∧ strip_uuid ji.jobUuid = job_uuid_of location) ↔
      ∃ ji ∈ st.jobs, strip_uuid ji.jobUuid = job_uuid_of location) ∧
    ((∀ ji ∈ st.jobs, strip_uuid ji.jobUuid ≠ job_uuid_of location) →
      get_status st (some (job_uuid_of location)) =
        Except.error ("Job " ++ job_uuid_of location ++ " not found")) := by
  have hmem : ∀ ji, find_job st.jobs (job_uuid_of location) = some ji →
      ji ∈ st.jobs ∧ strip_uuid ji.jobUuid = job_uuid_of location := by
    intro ji
    induction st.jobs with
    | nil => simp [find_job]
    | cons hd tl ih =>
      by_cases h : strip_uuid hd.jobUuid = job_uuid_of location
      · intro hf
        simp only [find_job, if_pos h, Option.some.injEq] at hf
        subst hf
        exact ⟨List.mem_cons_self .., h⟩
      · intro hf
        simp only [find_job, if_neg h] at hf
        have := ih hf
        exact ⟨List.mem_cons_of_mem _ this.1, this.2⟩
  constructor
  · constructor
    · intro ⟨ji, _, hm, he⟩
      exact ⟨ji, hm, he⟩
    · intro hex
      obtain ⟨ji, hf⟩ := (find_job_isSome_iff st.jobs (job_uuid_of location)).mpr hex
      refine ⟨ji, ?_, hmem ji hf⟩
      simp [get_status, hf]
  · intro hnone
    have : find_job st.jobs (job_uuid_of location) = none := by
      cases hf : find_job st.jobs (job_uuid_of location) with
      | none => rfl
      | some ji =>
        have := hmem ji hf
        exact absurd this.2 (hnone ji this.1)
    simp [get_status, this]

/-- C4 witness: on a concrete status document whose record identifier is
`urn:uuid:4af8` and a location ending in `/4af8`, the lookup matches
after prefix stripping; with a location ending in `/zzzz` it raises. -/
theorem c4_job_matching_witness :
    (∃ ji, get_status prefixedStatus (some (job_uuid_of "http://h:80/eSCL/ScanJobs/4af8")) =
        Except.ok (prefixedStatus, some ji) ∧ ji ∈ prefixedStatus.jobs ∧
        strip_uuid ji.jobUuid = job_uuid_of "http://h:80/eSCL/ScanJobs/4af8") ∧
    get_status prefixedStatus (some (job_uuid_of "http://h:80/eSCL/ScanJobs/zzzz")) =
      Except.error ("Job " ++ job_uuid_of "http://h:80/eSCL/ScanJobs/zzzz" ++ " not found") :=
  ⟨(c4_job_matching prefixedStatus "http://h:80/eSCL/ScanJobs/4af8").1.mpr (by decide),
   (c4_job_matching prefixedStatus "http://h:80/eSCL/ScanJobs/zzzz").2 (by decide)⟩

/-- C6: for every status document holding at least one job record, the
parsed result presents the per-job records as a list-shaped collection —
in particular a document holding exactly one record yields the
one-element list coercion. -/
theorem c6_jobs_always_list (devState : String) (jobRecords : List XVal)
    (h : jobRecords ≠ []) :
    ((lookupField (parse_status_document devState jobRecords) "scan:Jobs").bind
        (lookupField · "scan:JobInfo")) = some (.list jobRecords) := by
  match jobRecords with
  | [] => exact absurd rfl h
  | [v] => rfl
  | v :: w :: rest => rfl

/-- C6 witness: a document holding exactly one job record parses to a
one-element list of records. -/
theorem c6_jobs_always_list_witness :
    ((lookupField (parse_status_document "Idle" [.obj [("pwg:JobUuid", .str "u1")]]) "scan:Jobs").bind
        (lookupField · "scan:JobInfo")) =
      some (.list [.obj [("pwg:JobUuid", .str "u1")]]) :=
  c6_jobs_always_list "Idle" [.obj [("pwg:JobUuid", .str "u1")]] (List.cons_ne_nil _ _)

/-- C7: every known paper-size name parses to a region with zero x and y
offsets and width/height equal to the size's physical dimensions
converted at 300 device units per inch, truncating toward zero; in
particular `letter` (8.5×11 inches) yields `x=0, y=0, width=2550,
height=3300`. -/
theorem c7_known_sizes_zero_offset :
    (∀ e ∈ SIZES,
      (parse_length e.2.1.data).isSome = true ∧ (parse_length e.2.2.data).isSome = true ∧
      parse_region e.1 = Except.ok
        ⟨0, 0, atThreeHundredPerInch (inchesOf ((parse_length e.2.1.data).getD ⟨0, 1⟩)),
               atThreeHundredPerInch (inchesOf ((parse_length e.2.2.data).getD ⟨0, 1⟩))⟩) ∧
    parse_region "letter" = Except.ok ⟨0, 0, 2550, 3300⟩ := by
  constructor
  · decide
  · decide

/-- C8: a region string that is neither a known paper-size name nor a
four-part colon-separated rectangle of parseable lengths makes
`parse_region` raise the region-parse error instead of returning a
default region. -/
theorem c8_malformed_region_fails (region : String)
    (hname : ∀ e ∈ SIZES, e.1 ≠ pyLower region)
    (hbad : (pySplit ':' (pyLower region).data).length ≠ 4 ∨
            ∃ p ∈ pySplit ':' (pyLower region).data, parse_length p = none) :
    parse_region region = Except.error ("Could not parse region " ++ region) := by
  have hfind : sizesFind (pyLower region) = none := by
    unfold sizesFind
    rw [List.find?_eq_none.mpr]
    · rfl
    · intro e he
      simpa using hname e he
  unfold parse_region
  rw [hfind]
  rcases hps : pySplit ':' (pyLower region).data with _ | ⟨p1, _ | ⟨p2, _ | ⟨p3, _ | ⟨p4, _ | ⟨p5, rest⟩⟩⟩⟩⟩ <;>
    try rfl
  rcases hbad with hlen | ⟨p, hp, hpnone⟩
  · rw [hps] at hlen
    simp at hlen
  · rw [hps] at hp
    simp only [List.mem_cons, List.not_mem_nil, or_false] at hp
    rcases hp with rfl | rfl | rfl | rfl
    · simp [hpnone]
    · cases h1 : parse_length p1 <;> simp [h1, hpnone]
    · cases h1 : parse_length p1 <;> cases h2 : parse_length p2 <;> simp [h1, h2, hpnone]
    · cases h1 : parse_length p1 <;> cases h2 : parse_length p2 <;>
        cases h3 : parse_length p3 <;> simp [h1, h2, h3, hpnone]

/-- C8 witness: `12xy:1cm:1cm:1cm` is no known size name, splits into
four parts, and its first token parses as no length, so the region-parse
error is raised. -/
theorem c8_malformed_region_fails_witness :
    parse_region "12xy:1cm:1cm:1cm" =
      Except.error ("Could not parse region " ++ "12xy:1cm:1cm:1cm") :=
  c8_malformed_region_fails "12xy:1cm:1cm:1cm" (by decide) (by decide)

/-- Decoding the digit characters `natStrAux` produces. -/
theorem digitsVal_append_singleton (cs : List Char) (c : Char) :
    digitsVal (cs ++ [c]) = 10 * digitsVal cs + (c.toNat - 48) := by
  simp [digitsVal, List.foldl_append]

/-- With enough fuel, `natStrAux` is decoded back by `digitsVal`. -/
theorem digitsVal_natStrAux : ∀ fuel n, n ≤ fuel → digitsVal (natStrAux fuel n) = n := by
  intro fuel
  induction fuel with
  | zero =>
    intro n hn
    have : n = 0 := by omega
    subst this
    rfl
  | succ fuel ih =>
    intro n hn
    by_cases h0 : n = 0
    · subst h0
      rfl
    · rw [natStrAux, if_neg h0, digitsVal_append_singleton]
      have hdiv : n / 10 ≤ fuel := by
        have := Nat.div_lt_self (Nat.pos_of_ne_zero h0) (by norm_num : 1 < 10)
        omega
      rw [ih _ hdiv]
      have h10 : n % 10 < 10 := Nat.mod_lt _ (by norm_num)
      have hall : ∀ k < 10, (Char.ofNat (48 + k)).toNat - 48 = k := by decide
      rw [hall _ h10]
      omega

/-- `digitsVal` decodes `natStr`. -/
theorem digitsVal_natStr (n : Nat) : digitsVal (natStr n).data = n := by
  by_cases h0 : n = 0
  · subst h0
    rfl
  · rw [natStr, if_neg h0]
    exact digitsVal_natStrAux (n + 1) n (by omega)

/-- Distinct page numbers format to distinct strings. -/
theorem natStr_injective : Function.Injective natStr := by
  intro a b h
  have := congrArg (fun s => digitsVal s.data) h
  simpa [digitsVal_natStr] using this

/-- For a per-page format, distinct pages are saved under distinct
names. -/
theorem save_name_inj (format stem suffix : String) (hfmt : format ≠ "pdf")
    {p q : Nat} (h : save_name format stem suffix p = save_name format stem suffix q) :
    p = q := by
  rw [save_name, if_neg hfmt, save_name, if_neg hfmt] at h
  have hd := congrArg String.data h
  simp only [String.data_append] at hd
  have h1 := List.append_cancel_right hd
  have h2 := List.append_cancel_left h1
  exact natStr_injective (String.ext h2)

/-- The loop on the `pagesThenNotFound` scenario: it writes one file per
payload at consecutive pages, attempts one document fetch per payload
plus the one answered by the 404, and stops there whatever the final
reported state is. -/
theorem pollLoop_pagesThenNotFound (format stem suffix : String) (docs : List Doc)
    (lastState : String) : ∀ (page k : Nat) (ws : List (String × Doc)) (evs : List Ev),
    pollLoop format stem suffix (pagesThenNotFound docs lastState) page ws k evs =
      ⟨ws ++ expectedWrites format stem suffix page docs, k + docs.length + 1,
       page + docs.length, evs ++ expectedEvs format stem suffix page docs⟩ := by
  induction docs with
  | nil =>
    intro page k ws evs
    simp [pagesThenNotFound, pollLoop, expectedWrites, expectedEvs]
  | cons d ds ih =>
    intro page k ws evs
    have hstep : pagesThenNotFound (d :: ds) lastState =
        ⟨"Processing", some d⟩ :: pagesThenNotFound ds lastState := by
      simp [pagesThenNotFound]
    rw [hstep, pollLoop]
    simp only [if_pos rfl]
    rw [ih]
    simp [expectedWrites, expectedEvs, LoopOut.mk.injEq, List.append_assoc]
    omega

/-- For the single-file `pdf` format, every page is written to the one
combined target file. -/
theorem expectedWrites_pdf (stem suffix : String) (docs : List Doc) :
    ∀ page, expectedWrites "pdf" stem suffix page docs =
      docs.map (fun d => (stem ++ suffix, d)) := by
  induction docs with
  | nil => intro page; rfl
  | cons d ds ih =>
    intro page
    simp [expectedWrites, save_document, save_name, ih]

/-- The expected writes, indexed by fetch order. -/
theorem expectedWrites_eq_range (format stem suffix : String) (docs : List Doc) :
    ∀ page, expectedWrites format stem suffix page docs =
      (List.range docs.length).map
        (fun i => (save_name format stem suffix (page + i), docs.getD i [])) := by
  induction docs with
  | nil => intro page; rfl
  | cons d ds ih =>
    intro page
    rw [expectedWrites, ih (page + 1)]
    rw [show (d :: ds).length = ds.length + 1 from rfl, List.range_succ_eq_map]
    rw [List.map_cons, List.map_map]
    refine congrArg₂ _ (by simp [save_document]) ?_
    refine List.map_congr_left ?_
    intro i _
    simp only [Function.comp_apply, List.getD_cons_succ]
    congr 2
    omega

/-- For a per-page format the expected write names are pairwise
distinct. -/
theorem expectedWrites_names_nodup (format stem suffix : String) (hfmt : format ≠ "pdf")
    (docs : List Doc) (page : Nat) :
    ((expectedWrites format stem suffix page docs).map Prod.fst).Nodup := by
  rw [expectedWrites_eq_range, List.map_map]
  refine List.Nodup.map_on ?_ (List.nodup_range _)
  intro x hx y hy hxy
  simp only [Function.comp_apply] at hxy
  have := save_name_inj format stem suffix hfmt hxy
  omega

/-- The number of expected writes is the number of payloads. -/
theorem expectedWrites_length (format stem suffix : String) (docs : List Doc) (page : Nat) :
    (expectedWrites format stem suffix page docs).length = docs.length := by
  rw [expectedWrites_eq_range]
  simp

/-- C2 counterexample: with exactly one page payload followed by the
not-found signal (and the device reporting `Processing` throughout), the
loop writes the one page file but attempts a second document fetch — the
(N+1)th fetch the claim says is never attempted is exactly the one the
404 answers. -/
theorem c2_claim_false_extra_fetch :
    (pollLoop "jpeg" "Scan" ".jpeg" (pagesThenNotFound [[7]] "Processing") 1 [] 0 []).writes.length
      = 1 ∧
    (pollLoop "jpeg" "Scan" ".jpeg" (pagesThenNotFound [[7]] "Processing") 1 [] 0 []).fetches
      = 2 := by
  constructor
  · decide
  · decide

/-- C2 (amended): on a transport answering N page payloads and then the
not-found signal, with the device reporting `Processing` at each
producing poll, the loop performs exactly N page writes — N pairwise
distinct page files for a per-page format, or every write into the one
combined target file for `pdf` — attempts exactly N+1 document fetches,
and stops at the fetch answered by the not-found signal whatever state
is reported alongside it. -/
theorem c2_amended_poll_loop (format stem suffix : String) (docs : List Doc)
    (lastState : String) :
    (pollLoop format stem suffix (pagesThenNotFound docs lastState) 1 [] 0 []).writes =
      expectedWrites format stem suffix 1 docs ∧
    (pollLoop format stem suffix (pagesThenNotFound docs lastState) 1 [] 0 []).fetches =
      docs.length + 1 ∧
    (pollLoop format stem suffix (pagesThenNotFound docs lastState) 1 [] 0 []).writes.length =
      docs.length ∧
    (format ≠ "pdf" →
      (((pollLoop format stem suffix (pagesThenNotFound docs lastState) 1 [] 0 []).writes.map
          Prod.fst).Nodup)) ∧
    (format = "pdf" →
      (pollLoop format stem suffix (pagesThenNotFound docs lastState) 1 [] 0 []).writes.map
          Prod.fst = List.replicate docs.length (stem ++ suffix)) := by
  rw [pollLoop_pagesThenNotFound]
  refine ⟨by simp, by simp, by simp [expectedWrites_length], ?_, ?_⟩
  · intro hfmt
    simpa using expectedWrites_names_nodup format stem suffix hfmt docs 1
  · intro hfmt
    subst hfmt
    rw [List.nil_append, expectedWrites_pdf, List.map_map]
    simp [Function.comp_def, List.map_const']

/-- C2 witness: for two payloads under the `jpeg` format the loop writes
two pages under distinct names and attempts three fetches. -/
theorem c2_amended_poll_loop_witness :
    (pollLoop "jpeg" "Scan" ".jpeg" (pagesThenNotFound [[7], [8]] "Idle") 1 [] 0 []).fetches
      = 3 ∧
    ((pollLoop "jpeg" "Scan" ".jpeg" (pagesThenNotFound [[7], [8]] "Idle") 1 [] 0 []).writes.map
      Prod.fst).Nodup :=
  ⟨(c2_amended_poll_loop "jpeg" "Scan" ".jpeg" [[7], [8]] "Idle").2.1,
   (c2_amended_poll_loop "jpeg" "Scan" ".jpeg" [[7], [8]] "Idle").2.2.2.1 (by decide)⟩

/-- C9: a fetched document is written to the single combined target file
for the `pdf` format; otherwise to its own per-page file named by
inserting the page number before the target's extension, the pages
numbered from 1 in fetch order. -/
theorem c9_save_document_naming :
    (∀ (stem suffix : String) (data : Doc) (page : Nat),
      save_document "pdf" stem suffix data page = (stem ++ suffix, data)) ∧
    (∀ (stem suffix : String) (data : Doc) (page : Nat),
      save_document "jpeg" stem suffix data page =
        (stem ++ "-" ++ natStr page ++ suffix, data)) ∧
    (∀ (stem suffix : String) (docs : List Doc) (lastState : String),
      (pollLoop "jpeg" stem suffix (pagesThenNotFound docs lastState) 1 [] 0 []).writes =
        (List.range docs.length).map
          (fun i => (stem ++ "-" ++ natStr (i + 1) ++ suffix, docs.getD i []))) := by
  refine ⟨fun stem suffix data page => rfl, fun stem suffix data page => rfl, ?_⟩
  intro stem suffix docs lastState
  rw [pollLoop_pagesThenNotFound, List.nil_append, expectedWrites_eq_range]
  refine List.map_congr_left ?_
  intro i _
  rw [save_name, if_neg (by decide), Nat.add_comm 1 i]

/-- C9 witness: the second of two fetched `jpeg` pages is written to
`Scan-2.jpeg`. -/
theorem c9_save_document_naming_witness :
    (pollLoop "jpeg" "Scan" ".jpeg" (pagesThenNotFound [[7], [8]] "Idle") 1 [] 0 []).writes =
      [("Scan-1.jpeg", [7]), ("Scan-2.jpeg", [8])] := by
  rw [c9_save_document_naming.2.2 "Scan" ".jpeg" [[7], [8]] "Idle"]
  decide

/-- C10: for the `pdf` format with k ≥ 1 fetched documents, every write
goes to the same target file with truncation, so after the run the
target holds exactly the bytes of the last fetched document and no other
output file exists. -/
theorem c10_pdf_last_write_wins (stem suffix : String) (docs : List Doc) (lastState : String)
    (h : docs ≠ []) :
    fsAfter (pollLoop "pdf" stem suffix (pagesThenNotFound docs lastState) 1 [] 0 []).writes
        (stem ++ suffix) = some (docs.getLastD []) ∧
    ∀ name, name ≠ stem ++ suffix →
      fsAfter (pollLoop "pdf" stem suffix (pagesThenNotFound docs lastState) 1 [] 0 []).writes
        name = none := by
  rw [pollLoop_pagesThenNotFound]
  simp only [List.nil_append]
  rw [expectedWrites_pdf]
  constructor
  · unfold fsAfter
    rw [← List.map_reverse]
    rcases hrev : docs.reverse with _ | ⟨last, rest⟩
    · exact absurd (by simpa using congrArg List.reverse hrev) h
    · rw [List.map_cons, List.find?_cons_of_pos _ (by simp)]
      have hlast : docs.getLast? = some last := by
        rw [← List.head?_reverse, hrev]
        rfl
      simp [List.getLastD_eq_getLast?, hlast]
  · intro name hne
    unfold fsAfter
    rw [List.find?_eq_none.mpr]
    · rfl
    · intro x hx
      rw [List.mem_reverse] at hx
      obtain ⟨d, _, rfl⟩ := List.mem_map.mp hx
      simpa using fun hc => hne hc.symm

/-- C10 witness: with two fetched documents the `pdf` target holds the
second one's bytes. -/
theorem c10_pdf_last_write_wins_witness :
    fsAfter (pollLoop "pdf" "Scan" ".pdf" (pagesThenNotFound [[7], [8]] "Idle") 1 [] 0 []).writes
        ("Scan" ++ ".pdf") = some [8] :=
  (c10_pdf_last_write_wins "Scan" ".pdf" [[7], [8]] "Idle" (by decide)).1

/-- C5: when the probe observes a non-`Idle` device state the run fails
with the busy error and never issues a job-creation request; and in any
run whatsoever, a job-creation request can only come after the probe's
capabilities and status fetches have completed. -/
theorem c5_probe_gates_job_creation (duplexWanted : Bool) (format stem suffix : String)
    (dev : Device) :
    (dev.probeState ≠ "Idle" →
      (runMain duplexWanted format stem suffix dev).1 =
          Except.error (.busy "Scanner is not idle") ∧
      Ev.createJob ∉ (runMain duplexWanted format stem suffix dev).2) ∧
    (Ev.createJob ∈ (runMain duplexWanted format stem suffix dev).2 →
      (runMain duplexWanted format stem suffix dev).2.take 3 =
        [Ev.getCaps, Ev.getStatus, Ev.createJob]) := by
  have hrunE : ∀ e, check_capabilities_and_status duplexWanted dev = Except.error e →
      runMain duplexWanted format stem suffix dev =
        (Except.error e, [Ev.getCaps, Ev.getStatus]) := by
    intro e he
    unfold runMain
    rw [he]
  constructor
  · intro hne
    have hc : check_capabilities_and_status duplexWanted dev =
        Except.error (.busy "Scanner is not idle") := by
      unfold check_capabilities_and_status
      rw [if_pos hne]
    rw [hrunE _ hc]
    exact ⟨rfl, by decide⟩
  · intro hmem
    rcases hc : check_capabilities_and_status duplexWanted dev with e | u
    · rw [hrunE _ hc] at hmem
      simp at hmem
    · unfold runMain
      rw [hc]
      rcases hfj : find_job dev.finalStatus.jobs (job_uuid_of dev.jobLocation) with _ | ji
      · simp [ScanJob.execute, hfj]
      · rcases hcf : check_final_status ji with m | v <;>
          simp [ScanJob.execute, hfj, hcf]

/-- C5 witness: on a device probed in state `Processing` the run reports
the busy failure and its trace holds no job-creation request. -/
theorem c5_probe_gates_job_creation_witness :
    (runMain false "pdf" "Scan" ".pdf" busyDev).1 =
        Except.error (.busy "Scanner is not idle") ∧
    Ev.createJob ∉ (runMain false "pdf" "Scan" ".pdf" busyDev).2 :=
  (c5_probe_gates_job_creation false "pdf" "Scan" ".pdf" busyDev).1 (by decide)

/-- C1 witness: a truthy non-success reason together with a
non-terminal state does raise the error. -/
theorem c1_amended_final_status_iff_witness :
    ∃ msg, check_final_status
        { jobUuid := "j", jobState := some "Canceled",
          reasons := .single "JobCanceledAtDevice" } = Except.error msg :=
  (c1_amended_final_status_iff
      { jobUuid := "j", jobState := some "Canceled",
        reasons := .single "JobCanceledAtDevice" }).1.mpr (by decide)

/-- C7 witness: the `a4` entry of the size table (210×297 mm) parses to
the zero-offset region given by the 300-per-inch conversion. -/
theorem c7_known_sizes_zero_offset_witness :
    (parse_length "210mm".data).isSome = true ∧ (parse_length "297mm".data).isSome = true ∧
    parse_region "a4" = Except.ok
      ⟨0, 0, atThreeHundredPerInch (inchesOf ((parse_length "210mm".data).getD ⟨0, 1⟩)),
             atThreeHundredPerInch (inchesOf ((parse_length "297mm".data).getD ⟨0, 1⟩))⟩ :=
  c7_known_sizes_zero_offset.1 ("a4", "210mm", "297mm") (by decide)
